import Mathlib

/-!
Shallow embedding of the core of `src/script.js` (class `VitalSignsMonitor`,
the "Physiological Signal & Alarm Engine" of the vital-signs monitor
simulation): the vitals store and alarm limits, the alarm
evaluation/trigger/silence machinery, the NIBP measurement-cycle timers,
and the rhythm-dependent ECG waveform generator.

Timer-driven behaviour (`setTimeout`/`clearTimeout`) is embedded as an
explicit pending-timer queue inside the monitor state together with a
fuelled `advance` function that fires due timers in JavaScript event-loop
order (earliest deadline first, FIFO among equal deadlines).  Each call to
`Math.random()` is embedded as an explicit real argument `u` drawn from
`[0,1)`.  JavaScript numbers are embedded as `ℚ` where the code only ever
compares and prints them (vitals, limits) and as `ℝ` where the code does
trigonometry (waveforms).
-/

namespace VSM

/-- Per-vital alarm limits `{low, high}` (`this.alarmLimits` entries). -/
structure Limits where
  low : ℚ
  high : ℚ
  deriving DecidableEq, Repr

/-- The six vital-sign values (`this.vitals`). -/
structure Vitals where
  heartRate : ℚ
  spo2 : ℚ
  respiratoryRate : ℚ
  systolicBP : ℚ
  diastolicBP : ℚ
  temperature : ℚ
  deriving DecidableEq, Repr

/-- The six alarm-limit entries (`this.alarmLimits`). -/
structure AlarmLimits where
  heartRate : Limits
  spo2 : Limits
  respiratoryRate : Limits
  systolicBP : Limits
  diastolicBP : Limits
  temperature : Limits
  deriving DecidableEq, Repr

/-- The `alarm` CSS class on the five vital overlay DOM elements
(`hr-overlay`, `spo2-overlay`, `rr-overlay`, `bp-overlay`, `temp-overlay`;
systolic and diastolic share `bp-overlay`). -/
structure Overlays where
  hr : Bool
  spo2 : Bool
  rr : Bool
  bp : Bool
  temp : Bool
  deriving DecidableEq, Repr

/-- Actions a pending `setTimeout` callback can perform: the alarm
auto-unsilence (`silenceAlarm`, 120000 ms), the NIBP cycle transitions
(`startNIBPMeasurement`, 3000 ms then 2000 ms) and the NIBP auto-repeat
retrigger (`this.nibpTimer`). -/
inductive TAct where
  | unsilence : TAct
  | nibpDeflate : TAct
  | nibpComplete : TAct
  | nibpRetrigger : TAct
  deriving DecidableEq, Repr

/-- A pending `setTimeout` callback: its handle `id`, its absolute due
time in milliseconds, and its action. -/
structure Timer where
  id : ℕ
  fireAt : ℕ
  act : TAct
  deriving DecidableEq, Repr

/-- The monitor state: the fields of `VitalSignsMonitor` that the alarm
engine and the NIBP cycle read or write, the DOM text/classes they mutate,
a log of requested alarm tones (`createAlarmSound` calls), and the pending
timer queue.  `hasAudioContext` embeds `this.audioContext` being non-null. -/
structure State where
  vitals : Vitals
  alarmLimits : AlarmLimits
  alarmEnabled : Bool
  audioEnabled : Bool
  hasAudioContext : Bool
  alarmActive : Bool
  alarmSilenced : Bool
  alarmMessage : String
  overlays : Overlays
  toneLog : List String
  nibpMeasuring : Bool
  nibpInterval : ℕ
  nibpStatus : String
  nibpMeasuringClass : Bool
  nibpSuccessClass : Bool
  startBtnDisabled : Bool
  stopBtnDisabled : Bool
  nibpTimer : Option ℕ
  timers : List Timer
  nextId : ℕ
  deriving DecidableEq, Repr

/-- `Object.keys(this.vitals)` in insertion order, as iterated by
`checkAlarms`. -/
def vitalNames : List String :=
  ["heartRate", "spo2", "respiratoryRate", "systolicBP", "diastolicBP", "temperature"]

/-- `this.vitals[name]`. -/
def Vitals.value (v : Vitals) : String → ℚ
  | "heartRate" => v.heartRate
  | "spo2" => v.spo2
  | "respiratoryRate" => v.respiratoryRate
  | "systolicBP" => v.systolicBP
  | "diastolicBP" => v.diastolicBP
  | "temperature" => v.temperature
  | _ => 0

/-- `this.vitals[name] = x`. -/
def Vitals.set (v : Vitals) (name : String) (x : ℚ) : Vitals :=
  match name with
  | "heartRate" => { v with heartRate := x }
  | "spo2" => { v with spo2 := x }
  | "respiratoryRate" => { v with respiratoryRate := x }
  | "systolicBP" => { v with systolicBP := x }
  | "diastolicBP" => { v with diastolicBP := x }
  | "temperature" => { v with temperature := x }
  | _ => v

/-- `this.alarmLimits[name]`. -/
def AlarmLimits.for (L : AlarmLimits) : String → Limits
  | "heartRate" => L.heartRate
  | "spo2" => L.spo2
  | "respiratoryRate" => L.respiratoryRate
  | "systolicBP" => L.systolicBP
  | "diastolicBP" => L.diastolicBP
  | "temperature" => L.temperature
  | _ => ⟨0, 0⟩

/-- JavaScript template-literal rendering of a number.  Every value any
claim exercises is integral, where JavaScript prints the plain integer
digits; non-integral rendering is never reached by the claims. -/
def jsNum (q : ℚ) : String :=
  if q.den = 1 then toString q.num else toString q

/-- The breach test of `checkAlarms`:
`value < limits.low || value > limits.high` (strict comparisons). -/
def isBreach (value : ℚ) (lim : Limits) : Bool :=
  value < lim.low || lim.high < value

/-- The breach message pushed by `checkAlarms`:
`` `${vital}: ${value} (Normal: ${limits.low}-${limits.high})` ``. -/
def breachMsg (name : String) (value : ℚ) (lim : Limits) : String :=
  name ++ ": " ++ jsNum value ++ " (Normal: " ++ jsNum lim.low ++ "-" ++ jsNum lim.high ++ ")"

/-- The `alarms` array accumulated by the `Object.keys(this.vitals).forEach`
loop of `checkAlarms`: one message per breached vital, in key order. -/
def breachList (v : Vitals) (L : AlarmLimits) : List String :=
  (vitalNames.filter (fun n => isBreach (v.value n) (L.for n))).map
    (fun n => breachMsg n (v.value n) (L.for n))

/-- The overlay `classList.add('alarm')` / `classList.remove('alarm')` update
for one vital inside the `forEach` loop of `checkAlarms`. -/
def setOverlay (o : Overlays) (name : String) (b : Bool) : Overlays :=
  match name with
  | "heartRate" => { o with hr := b }
  | "spo2" => { o with spo2 := b }
  | "respiratoryRate" => { o with rr := b }
  | "systolicBP" => { o with bp := b }
  | "diastolicBP" => { o with bp := b }
  | "temperature" => { o with temp := b }
  | _ => o

/-- The overlay side effects of the `forEach` loop of `checkAlarms`, in key
order (so `diastolicBP` overwrites the shared `bp-overlay` last). -/
def updateOverlays (v : Vitals) (L : AlarmLimits) (o : Overlays) : Overlays :=
  vitalNames.foldl (fun o n => setOverlay o n (isBreach (v.value n) (L.for n))) o

/-- `setTimeout(cb, d)`: append a pending timer due at absolute time
`fireAt` and return its fresh handle. -/
def schedule (act : TAct) (fireAt : ℕ) (s : State) : State × ℕ :=
  ({ s with timers := s.timers ++ [⟨s.nextId, fireAt, act⟩], nextId := s.nextId + 1 },
   s.nextId)

/-- `triggerAlarm(alarms)`: set `alarmActive`, show the joined message, and
(if audio is enabled and an audio context exists) call `createAlarmSound`,
which the model logs as an `"alarm"` tone request. -/
def triggerAlarm (alarms : List String) (s : State) : State :=
  let s := { s with alarmActive := true, alarmMessage := String.intercalate ", " alarms }
  if s.audioEnabled && s.hasAudioContext then
    { s with toneLog := s.toneLog ++ ["alarm"] }
  else s

/-- `clearAlarms()`: clear `alarmActive` and remove the `alarm` class from
every vital overlay (the message text is left as-is, as in the source). -/
def clearAlarms (s : State) : State :=
  { s with alarmActive := false, overlays := ⟨false, false, false, false, false⟩ }

/-- `checkAlarms()`: skipped entirely when alarms are disabled or silenced;
otherwise update every overlay, then trigger on a non-empty breach list and
clear on an empty one. -/
def checkAlarms (s : State) : State :=
  if !s.alarmEnabled || s.alarmSilenced then s
  else
    let alarms := breachList s.vitals s.alarmLimits
    let s := { s with overlays := updateOverlays s.vitals s.alarmLimits s.overlays }
    if alarms.length > 0 then triggerAlarm alarms s else clearAlarms s

/-- `updateVital(vitalName, value)`: store the value, then re-evaluate the
alarms (the display updates are DOM-only). -/
def updateVital (name : String) (x : ℚ) (s : State) : State :=
  checkAlarms { s with vitals := s.vitals.set name x }

/-- `testAlarm()`. -/
def testAlarm (s : State) : State :=
  triggerAlarm ["Test Alarm - All systems functioning"] s

/-- `silenceAlarm()` invoked at absolute time `t`: set `alarmSilenced`,
clear the active alarm display, and schedule `alarmSilenced = false` after
120000 ms.  No existing timer is cancelled or reused. -/
def silenceAlarm (t : ℕ) (s : State) : State :=
  (schedule .unsilence (t + 120000) (clearAlarms { s with alarmSilenced := true })).1

/-- `resetAlarms()`. -/
def resetAlarms (s : State) : State :=
  { clearAlarms s with alarmSilenced := false }

/-- `startNIBPMeasurement()` invoked at absolute time `t`: return
immediately if `nibpMeasuring` is already set; otherwise enter the
measuring display state and schedule the `Deflating...` transition after
3000 ms. -/
def startNIBPMeasurement (t : ℕ) (s : State) : State :=
  if s.nibpMeasuring then s
  else
    (schedule .nibpDeflate (t + 3000)
      { s with nibpMeasuring := true, nibpStatus := "Measuring...",
               nibpMeasuringClass := true,
               startBtnDisabled := true, stopBtnDisabled := false }).1

/-- `stopNIBPMeasurement()`: clear `nibpMeasuring`, show `Stopped`, and
clear the timer stored in `nibpTimer` (only the auto-repeat retrigger is
ever stored there; the in-flight 3000 ms / 2000 ms cycle timeouts are
anonymous and are not cancelled). -/
def stopNIBPMeasurement (s : State) : State :=
  let s := { s with nibpMeasuring := false, nibpStatus := "Stopped",
                    nibpMeasuringClass := false, nibpSuccessClass := false,
                    startBtnDisabled := false, stopBtnDisabled := true }
  match s.nibpTimer with
  | some i => { s with timers := s.timers.filter (fun tm => tm.id ≠ i), nibpTimer := none }
  | none => s

/-- Run the body of a due `setTimeout` callback at its due time
`tm.fireAt`. -/
def fireTimer (tm : Timer) (s : State) : State :=
  match tm.act with
  | .unsilence => { s with alarmSilenced := false }
  | .nibpDeflate =>
      (schedule .nibpComplete (tm.fireAt + 2000) { s with nibpStatus := "Deflating..." }).1
  | .nibpComplete =>
      let s := { s with nibpStatus := "Complete", nibpMeasuringClass := false,
                        nibpSuccessClass := true,
                        startBtnDisabled := false, stopBtnDisabled := true }
      if s.nibpInterval > 0 then
        let r := schedule .nibpRetrigger (tm.fireAt + s.nibpInterval * 60000) s
        { r.1 with nibpTimer := some r.2 }
      else s
  | .nibpRetrigger => startNIBPMeasurement tm.fireAt s

/-- Earlier of two pending timers: strictly earlier deadline wins, ties
keep the first (FIFO, since the queue is kept in creation order). -/
def minT (a b : Timer) : Timer :=
  if b.fireAt < a.fireAt then b else a

/-- The next timer the event loop would run: the pending timer with the
least deadline, FIFO among equal deadlines. -/
def findMinT : List Timer → Option Timer
  | [] => none
  | tm :: rest => some (rest.foldl minT tm)

/-- Remove the pending timer with handle `i`. -/
def removeTimer (i : ℕ) (s : State) : State :=
  { s with timers := s.timers.filter (fun tm => tm.id ≠ i) }

/-- Run the event loop up to (and including) absolute time `t`: repeatedly
fire the earliest pending timer whose deadline has passed, each callback
running at its own due time.  `fuel` bounds the number of callbacks run and
is chosen large enough at every use site. -/
def advance : ℕ → ℕ → State → State
  | 0, _, s => s
  | fuel + 1, t, s =>
      match findMinT s.timers with
      | none => s
      | some tm =>
          if tm.fireAt ≤ t then advance fuel t (fireTimer tm (removeTimer tm.id s))
          else s

/-- The state built by the `VitalSignsMonitor` constructor (DOM texts start
empty; audio is modelled as successfully initialized).  The literals `36.5`
and `37.5` of the source are written `Rat.divInt 73 2` and
`Rat.divInt 75 2` so that concrete runs evaluate inside the kernel. -/
def initState : State where
  vitals := ⟨72, 98, 16, 120, 80, Rat.divInt 73 2⟩
  alarmLimits :=
    ⟨⟨60, 100⟩, ⟨95, 100⟩, ⟨12, 20⟩, ⟨90, 140⟩, ⟨60, 90⟩, ⟨36, Rat.divInt 75 2⟩⟩
  alarmEnabled := true
  audioEnabled := true
  hasAudioContext := true
  alarmActive := false
  alarmSilenced := false
  alarmMessage := ""
  overlays := ⟨false, false, false, false, false⟩
  toneLog := []
  nibpMeasuring := false
  nibpInterval := 5
  nibpStatus := ""
  nibpMeasuringClass := false
  nibpSuccessClass := false
  startBtnDisabled := false
  stopBtnDisabled := true
  nibpTimer := none
  timers := []
  nextId := 0

/-- `generateArrhythmiaECG(beatPhase, time)` with `this.currentRhythm`
passed explicitly.  `u` is the single `Math.random()` draw a call can make
(`irregularity` for `AF`, the chaotic sample for `VF`, `pvcChance` for
`PVC`); `time` is accepted, and ignored, exactly as in the source. -/
noncomputable def generateArrhythmiaECG (rhythm : String) (beatPhase time u : ℝ) : ℝ :=
  match rhythm with
  | "NSR" =>
      if beatPhase < 0.1 then Real.sin (beatPhase * Real.pi * 10) * 0.2
      else if beatPhase < 0.15 then Real.sin ((beatPhase - 0.1) * Real.pi * 20) * 1.0
      else if beatPhase < 0.3 then Real.sin ((beatPhase - 0.15) * Real.pi * 6.67) * 0.3
      else 0
  | "AF" =>
      let irregularity := (u - 0.5) * 0.3
      if beatPhase < 0.1 then Real.sin (beatPhase * Real.pi * 10) * (0.1 + irregularity)
      else if beatPhase < 0.15 then Real.sin ((beatPhase - 0.1) * Real.pi * 20) * 1.0
      else if beatPhase < 0.3 then Real.sin ((beatPhase - 0.15) * Real.pi * 6.67) * 0.3
      else 0
  | "VT" =>
      if beatPhase < 0.1 then Real.sin (beatPhase * Real.pi * 10) * 0.1
      else if beatPhase < 0.2 then Real.sin ((beatPhase - 0.1) * Real.pi * 10) * 1.2
      else if beatPhase < 0.4 then Real.sin ((beatPhase - 0.2) * Real.pi * 5) * 0.4
      else 0
  | "VF" => (u - 0.5) * 2.0
  | "PVC" =>
      if u < 0.1 then
        if beatPhase < 0.15 then Real.sin (beatPhase * Real.pi * 13.3) * 1.5
        else if beatPhase < 0.3 then Real.sin ((beatPhase - 0.15) * Real.pi * 6.67) * 0.5
        else 0
      else
        if beatPhase < 0.1 then Real.sin (beatPhase * Real.pi * 10) * 0.2
        else if beatPhase < 0.15 then Real.sin ((beatPhase - 0.1) * Real.pi * 20) * 1.0
        else if beatPhase < 0.3 then Real.sin ((beatPhase - 0.15) * Real.pi * 6.67) * 0.3
        else 0
  | _ =>
      if beatPhase < 0.1 then Real.sin (beatPhase * Real.pi * 10) * 0.2
      else if beatPhase < 0.15 then Real.sin ((beatPhase - 0.1) * Real.pi * 20) * 1.0
      else if beatPhase < 0.3 then Real.sin ((beatPhase - 0.15) * Real.pi * 6.67) * 0.3
      else 0

/-- One pre-noise, pre-artifact ECG sample of an `animateECG` tick at
column `x`: the tick samples `time = Date.now() / 1000` afresh — there is
no frozen-time path; the `isFrozen` branch only changes the rescheduling —
computes `t = time + (x / width) * 2`, the beat phase
`(t * heartRate / 60) % 1`, the rhythm amplitude, and the ST-segment
overlay on `0.15 ≤ beatPhase < 0.25`. -/
noncomputable def ecgBaseSample (rhythm : String) (heartRate stElevation : ℝ)
    (width : ℕ) (now : ℝ) (x : ℕ) (u : ℝ) : ℝ :=
  let t := now + ((x : ℝ) / (width : ℝ)) * 2
  let beatPhase := Int.fract (t * heartRate / 60)
  let amplitude := generateArrhythmiaECG rhythm beatPhase t u
  if 0.15 ≤ beatPhase ∧ beatPhase < 0.25 then amplitude + stElevation * 0.3 else amplitude

/-- How an `animateECG` / `animatePleth` tick reschedules itself: when
frozen, `setTimeout(..., 100)` (a fixed 100 ms cadence); when not frozen,
`requestAnimationFrame` (modelled as `none`). -/
def nextTickDelayMs (isFrozen : Bool) : Option ℕ :=
  if isFrozen then some 100 else none

theorem advance_zero (t : ℕ) (s : State) : advance 0 t s = s := rfl

theorem advance_succ (f t : ℕ) (s : State) :
    advance (f + 1) t s =
      match findMinT s.timers with
      | none => s
      | some tm =>
          if tm.fireAt ≤ t then advance f t (fireTimer tm (removeTimer tm.id s))
          else s := rfl

end VSM

open VSM

/-- C1: `checkAlarms` flags a breach exactly when `value < limits.low` or
`value > limits.high`; a value equal to a limit boundary is never a breach;
each breach produces the message
`"<vitalName>: <value> (Normal: <low>-<high>)"`; and from the default state,
with heartRate limits `{60,100}`, setting heartRate to 45 and evaluating
yields exactly `alarms = ["heartRate: 45 (Normal: 60-100)"]` and an active
alarm showing that message. -/
theorem c1_checkAlarms_strict_breach :
    (∀ (value : ℚ) (lim : Limits),
        isBreach value lim = true ↔ (value < lim.low ∨ lim.high < value)) ∧
    (∀ (value : ℚ) (lim : Limits), lim.low ≤ lim.high →
        value = lim.low ∨ value = lim.high → isBreach value lim = false) ∧
    (∀ (name : String) (value : ℚ) (lim : Limits),
        breachMsg name value lim =
          name ++ ": " ++ jsNum value ++ " (Normal: " ++ jsNum lim.low ++ "-" ++
            jsNum lim.high ++ ")") ∧
    breachList (Vitals.set initState.vitals "heartRate" 45) initState.alarmLimits =
        ["heartRate: 45 (Normal: 60-100)"] ∧
    (updateVital "heartRate" 45 initState).alarmActive = true ∧
    (updateVital "heartRate" 45 initState).alarmMessage =
        "heartRate: 45 (Normal: 60-100)" := by
  refine ⟨?_, ?_, fun _ _ _ => rfl, by decide, by decide, by decide⟩
  · intro value lim
    simp [isBreach]
  · intro value lim hle hv
    rcases hv with h | h <;> subst h <;> simp [isBreach] <;> exact hle

/-- C1 witness: the boundary conjunct applied at the heartRate limits: the
values 60 and 100 themselves are not breaches. -/
theorem c1_checkAlarms_strict_breach_witness :
    isBreach 60 ⟨60, 100⟩ = false ∧ isBreach 100 ⟨60, 100⟩ = false :=
  ⟨c1_checkAlarms_strict_breach.2.1 60 ⟨60, 100⟩ (by decide) (Or.inl rfl),
   c1_checkAlarms_strict_breach.2.1 100 ⟨60, 100⟩ (by decide) (Or.inr rfl)⟩

/-- C10: `testAlarm` is exactly `triggerAlarm` on the test message, and
`triggerAlarm` unconditionally sets `alarmActive`, shows the joined message,
and requests an alarm tone exactly when audio is enabled and available —
it never consults `alarmEnabled` or `alarmSilenced`, whose guard applies
only to `checkAlarms`. -/
theorem c10_trigger_bypasses_guards :
    (∀ s : State, testAlarm s = triggerAlarm ["Test Alarm - All systems functioning"] s) ∧
    (∀ (msgs : List String) (s : State),
        (triggerAlarm msgs s).alarmActive = true ∧
        (triggerAlarm msgs s).alarmMessage = String.intercalate ", " msgs ∧
        (triggerAlarm msgs s).toneLog =
          (if s.audioEnabled && s.hasAudioContext then s.toneLog ++ ["alarm"]
           else s.toneLog) ∧
        (triggerAlarm msgs s).alarmEnabled = s.alarmEnabled ∧
        (triggerAlarm msgs s).alarmSilenced = s.alarmSilenced) ∧
    (∀ s : State, s.alarmEnabled = false ∨ s.alarmSilenced = true →
        checkAlarms s = s) := by
  refine ⟨fun s => rfl, ?_, ?_⟩
  · intro msgs s
    by_cases hb : (s.audioEnabled && s.hasAudioContext) = true
    · simp [triggerAlarm, hb]
    · simp only [Bool.not_eq_true] at hb
      simp [triggerAlarm, hb]
  · intro s h
    unfold checkAlarms
    rcases h with h | h <;> simp [h]

/-- C10 witness: the guard conjunct applied at the default state with
alarms disabled and silenced: evaluation changes nothing. -/
theorem c10_trigger_bypasses_guards_witness :
    checkAlarms { initState with alarmEnabled := false, alarmSilenced := true } =
      { initState with alarmEnabled := false, alarmSilenced := true } :=
  c10_trigger_bypasses_guards.2.2 _ (Or.inl rfl)

/-- C4: the code evaluated at the failing input.  Start a measurement at
t=0 and stop it at t=1000: the status reads `Stopped`, but
`stopNIBPMeasurement` clears only the `nibpTimer` retrigger handle (which
is still null here), not the anonymous in-flight cycle timeouts — so the
`Deflating...` transition still fires at t=3000 and the `Complete`
transition at t=5000, which even schedules a fresh auto-retrigger.  The
claim says no such transition fires after a stop. -/
theorem c4_stop_does_not_cancel_cycle :
    (stopNIBPMeasurement (advance 1 1000 (startNIBPMeasurement 0 initState))).nibpStatus
        = "Stopped" ∧
    (advance 1 3000
        (stopNIBPMeasurement (advance 1 1000 (startNIBPMeasurement 0 initState)))).nibpStatus
        = "Deflating..." ∧
    (advance 2 5000
        (stopNIBPMeasurement (advance 1 1000 (startNIBPMeasurement 0 initState)))).nibpStatus
        = "Complete" ∧
    (advance 2 5000
        (stopNIBPMeasurement (advance 1 1000 (startNIBPMeasurement 0 initState)))).timers
        = [⟨2, 305000, .nibpRetrigger⟩] := by decide

/-- C5: the code evaluated at the failing input.  Starting at t=0 does
show `Measuring...`, transition to `Deflating...` at t=3000 and `Complete`
at t=5000, and the auto-retrigger is scheduled for t=305000 — but when it
fires there (the timer queue drains), `startNIBPMeasurement` returns
immediately because `nibpMeasuring` is still true, so no new cycle begins:
the status stays `Complete` and nothing further is scheduled.  The claim
says the state returns to measuring. -/
theorem c5_auto_retrigger_is_noop :
    (startNIBPMeasurement 0 initState).nibpStatus = "Measuring..." ∧
    (advance 1 3000 (startNIBPMeasurement 0 initState)).nibpStatus = "Deflating..." ∧
    (advance 2 5000 (startNIBPMeasurement 0 initState)).nibpStatus = "Complete" ∧
    (advance 2 5000 (startNIBPMeasurement 0 initState)).timers
        = [⟨2, 305000, .nibpRetrigger⟩] ∧
    (advance 3 305000 (startNIBPMeasurement 0 initState)).timers = [] ∧
    (advance 3 305000 (startNIBPMeasurement 0 initState)).nibpStatus = "Complete" ∧
    (advance 3 305000 (startNIBPMeasurement 0 initState)).nibpMeasuring = true := by decide

/-- C6: `nibpMeasuring` is a latch: `startNIBPMeasurement` is a strict
no-op whenever the flag is set and always leaves it set, the `Complete`
transition never clears it, and only `stopNIBPMeasurement` clears it — so
after a completed cycle every further start call (manual or retrigger)
returns immediately, as the concrete completed-cycle state shows. -/
theorem c6_nibpMeasuring_latch :
    (∀ (t : ℕ) (s : State), s.nibpMeasuring = true → startNIBPMeasurement t s = s) ∧
    (∀ (t : ℕ) (s : State), (startNIBPMeasurement t s).nibpMeasuring = true) ∧
    (∀ (tm : Timer) (s : State), tm.act = .nibpComplete →
        (fireTimer tm s).nibpMeasuring = s.nibpMeasuring) ∧
    (∀ s : State, (stopNIBPMeasurement s).nibpMeasuring = false) ∧
    (advance 2 5000 (startNIBPMeasurement 0 initState)).nibpStatus = "Complete" ∧
    (∀ t : ℕ, startNIBPMeasurement t (advance 2 5000 (startNIBPMeasurement 0 initState))
        = advance 2 5000 (startNIBPMeasurement 0 initState)) := by
  have h1 : ∀ (t : ℕ) (s : State), s.nibpMeasuring = true → startNIBPMeasurement t s = s := by
    intro t s h
    simp [startNIBPMeasurement, h]
  refine ⟨h1, ?_, ?_, ?_, by decide, fun t => h1 t _ (by decide)⟩
  · intro t s
    by_cases h : s.nibpMeasuring = true
    · simp [startNIBPMeasurement, h]
    · simp only [Bool.not_eq_true] at h
      simp [startNIBPMeasurement, h, schedule]
  · intro tm s h
    simp only [fireTimer, h]
    by_cases hi : s.nibpInterval > 0 <;> simp [hi, schedule]
  · intro s
    simp only [stopNIBPMeasurement]
    rcases hn : s.nibpTimer with _ | i <;> simp [hn]

/-- C6 witness: the no-op conjunct applied at a state with the flag set. -/
theorem c6_nibpMeasuring_latch_witness :
    startNIBPMeasurement 9999 { initState with nibpMeasuring := true }
      = { initState with nibpMeasuring := true } :=
  c6_nibpMeasuring_latch.1 9999 { initState with nibpMeasuring := true } rfl

/-- C2: when `alarmEnabled = false` or `alarmSilenced = true`, `checkAlarms`
is skipped entirely (no state change); and after a single `silenceAlarm` at
time `ts` (on a state with no other pending timers), any evaluation before
`ts + 120000` both fires no timer and changes nothing — the alarm stays
inactive despite a persisting breach — while any evaluation at or after
`ts + 120000` first clears `alarmSilenced` and then a persisting breach
triggers the alarm again. -/
theorem c2_silence_skips_evaluation :
    (∀ s : State, s.alarmEnabled = false ∨ s.alarmSilenced = true → checkAlarms s = s) ∧
    (∀ (s : State) (ts t : ℕ), s.timers = [] → s.alarmEnabled = true →
      (t < ts + 120000 →
        advance 1 t (silenceAlarm ts s) = silenceAlarm ts s ∧
        (silenceAlarm ts s).alarmSilenced = true ∧
        (silenceAlarm ts s).alarmActive = false ∧
        checkAlarms (advance 1 t (silenceAlarm ts s)) = silenceAlarm ts s) ∧
      (ts + 120000 ≤ t → breachList s.vitals s.alarmLimits ≠ [] →
        (advance 1 t (silenceAlarm ts s)).alarmSilenced = false ∧
        (checkAlarms (advance 1 t (silenceAlarm ts s))).alarmActive = true)) := by
  have hguard : ∀ s : State, s.alarmEnabled = false ∨ s.alarmSilenced = true →
      checkAlarms s = s := by
    intro s h
    unfold checkAlarms
    rcases h with h | h <;> simp [h]
  refine ⟨hguard, ?_⟩
  intro s ts t h he
  have hs1 : silenceAlarm ts s =
      { s with alarmSilenced := true, alarmActive := false,
               overlays := ⟨false, false, false, false, false⟩,
               timers := [⟨s.nextId, ts + 120000, .unsilence⟩],
               nextId := s.nextId + 1 } := by
    simp [silenceAlarm, clearAlarms, schedule, h]
  constructor
  · intro ht
    have hadv : advance 1 t (silenceAlarm ts s) = silenceAlarm ts s := by
      rw [hs1, show (1 : ℕ) = 0 + 1 from rfl, advance_succ]
      simp only [findMinT, List.foldl]
      rw [if_neg (by omega)]
    refine ⟨hadv, by rw [hs1], by rw [hs1], ?_⟩
    rw [hadv]
    exact hguard _ (Or.inr (by rw [hs1]))
  · intro ht hne
    have hadv : advance 1 t (silenceAlarm ts s) =
        { s with alarmSilenced := false, alarmActive := false,
                 overlays := ⟨false, false, false, false, false⟩,
                 timers := [], nextId := s.nextId + 1 } := by
      rw [hs1, show (1 : ℕ) = 0 + 1 from rfl, advance_succ]
      simp only [findMinT, List.foldl]
      rw [if_pos ht]
      simp [fireTimer, removeTimer, advance_zero]
    refine ⟨by rw [hadv], ?_⟩
    rw [hadv]
    unfold checkAlarms
    have hlen : 0 < (breachList s.vitals s.alarmLimits).length :=
      List.length_pos.mpr hne
    by_cases hb : (s.audioEnabled && s.hasAudioContext) = true
    · simp [he, hlen, triggerAlarm, hb]
    · simp only [Bool.not_eq_true] at hb
      simp [he, hlen, triggerAlarm, hb]

/-- C2 witness: heartRate 45 breaches, `silenceAlarm` at t=0; evaluation at
t=60000 changes nothing, evaluation at t=120000 triggers again. -/
theorem c2_silence_skips_evaluation_witness :
    checkAlarms (advance 1 60000 (silenceAlarm 0 (updateVital "heartRate" 45 initState)))
        = silenceAlarm 0 (updateVital "heartRate" 45 initState) ∧
    (checkAlarms (advance 1 120000
        (silenceAlarm 0 (updateVital "heartRate" 45 initState)))).alarmActive = true :=
  ⟨(((c2_silence_skips_evaluation.2 (updateVital "heartRate" 45 initState) 0 60000
      (by decide) (by decide)).1 (by decide)).2.2.2),
   (((c2_silence_skips_evaluation.2 (updateVital "heartRate" 45 initState) 0 120000
      (by decide) (by decide)).2 (by decide) (by decide)).2)⟩

/-- C3 counterexample: `silenceAlarm` at t=0 and again at t=60000.  The
claim says the first 120000 ms timer must not clear `alarmSilenced` early
and that it becomes false only at t=180000; but at t=120000 — still 60000 ms
before 120000 ms have elapsed since the most recent call — the first timer
fires and `alarmSilenced` is already false. -/
theorem c3_resilence_not_reset_counterexample :
    (advance 2 119999 (silenceAlarm 60000 (silenceAlarm 0 initState))).alarmSilenced = true ∧
    (advance 2 120000 (silenceAlarm 60000 (silenceAlarm 0 initState))).alarmSilenced = false := by
  decide

/-- C3 amended: calling `silenceAlarm` again while a silence is pending
stacks an independent second 120000 ms timer instead of resetting or
extending the first; the earlier timer still runs to completion, so
`alarmSilenced` becomes false 120000 ms after the EARLIEST pending call
(possibly well before 120000 ms after the most recent call). -/
theorem c3_resilence_timers_stack (s : State) (ts1 ts2 : ℕ) (h : s.timers = [])
    (h12 : ts1 ≤ ts2) :
    (silenceAlarm ts2 (silenceAlarm ts1 s)).timers =
      [⟨s.nextId, ts1 + 120000, .unsilence⟩, ⟨s.nextId + 1, ts2 + 120000, .unsilence⟩] ∧
    (advance 2 (ts1 + 120000) (silenceAlarm ts2 (silenceAlarm ts1 s))).alarmSilenced
      = false := by
  have hs2 : silenceAlarm ts2 (silenceAlarm ts1 s) =
      { s with alarmSilenced := true, alarmActive := false,
               overlays := ⟨false, false, false, false, false⟩,
               timers := [⟨s.nextId, ts1 + 120000, .unsilence⟩,
                          ⟨s.nextId + 1, ts2 + 120000, .unsilence⟩],
               nextId := s.nextId + 2 } := by
    simp [silenceAlarm, clearAlarms, schedule, h]
  refine ⟨by rw [hs2], ?_⟩
  rw [hs2, show (2 : ℕ) = 1 + 1 from rfl, advance_succ]
  simp only [findMinT, List.foldl, minT,
    if_neg (show ¬ (ts2 + 120000 < ts1 + 120000) by omega)]
  rw [if_pos (le_refl _)]
  simp only [removeTimer, fireTimer, List.filter]
  by_cases hc : ts2 + 120000 ≤ ts1 + 120000
  · simp [advance_succ, advance_zero, findMinT, minT, fireTimer, removeTimer, hc]
  · simp [advance_succ, findMinT, minT, hc]

/-- C3 amended witness: the stacking theorem applied to the counterexample
trace (silence at t=0, re-silence at t=60000). -/
theorem c3_resilence_timers_stack_witness :
    (silenceAlarm 60000 (silenceAlarm 0 initState)).timers =
      [⟨0, 120000, .unsilence⟩, ⟨1, 180000, .unsilence⟩] ∧
    (advance 2 120000 (silenceAlarm 60000 (silenceAlarm 0 initState))).alarmSilenced
      = false :=
  c3_resilence_timers_stack initState 0 60000 rfl (by decide)

/-- C7: the NSR branch of `generateArrhythmiaECG` is the exact piecewise
formula of the claim — `sin(phase·π·10)·0.2` on `[0,0.1)`,
`sin((phase−0.1)·π·20)·1.0` on `[0.1,0.15)`,
`sin((phase−0.15)·π·6.67)·0.3` on `[0.15,0.3)`, and exactly 0 on `[0.3,1)`
— it is deterministic (independent of the time and random arguments), and
at phase 0.05 it returns exactly 0.2 for every time. -/
theorem c7_nsr_waveform (phase t u : ℝ) :
    (0 ≤ phase → phase < 0.1 →
      generateArrhythmiaECG "NSR" phase t u = Real.sin (phase * Real.pi * 10) * 0.2) ∧
    (0.1 ≤ phase → phase < 0.15 →
      generateArrhythmiaECG "NSR" phase t u = Real.sin ((phase - 0.1) * Real.pi * 20) * 1.0) ∧
    (0.15 ≤ phase → phase < 0.3 →
      generateArrhythmiaECG "NSR" phase t u
        = Real.sin ((phase - 0.15) * Real.pi * 6.67) * 0.3) ∧
    (0.3 ≤ phase → phase < 1 → generateArrhythmiaECG "NSR" phase t u = 0) ∧
    (∀ t2 u2 : ℝ,
      generateArrhythmiaECG "NSR" phase t u = generateArrhythmiaECG "NSR" phase t2 u2) ∧
    generateArrhythmiaECG "NSR" 0.05 t u = 0.2 := by
  refine ⟨?_, ?_, ?_, ?_, ?_, ?_⟩
  · intro _ h1
    simp [generateArrhythmiaECG, h1]
  · intro h0 h1
    have hn : ¬ phase < 0.1 := by linarith
    simp [generateArrhythmiaECG, hn, h1]
  · intro h0 h1
    have hn : ¬ phase < 0.1 := by linarith
    have hn2 : ¬ phase < 0.15 := by linarith
    simp [generateArrhythmiaECG, hn, hn2, h1]
  · intro h0 h1
    have hn : ¬ phase < 0.1 := by linarith
    have hn2 : ¬ phase < 0.15 := by linarith
    have hn3 : ¬ phase < 0.3 := by linarith
    simp [generateArrhythmiaECG, hn, hn2, hn3]
  · intro t2 u2
    simp only [generateArrhythmiaECG]
  · have h : generateArrhythmiaECG "NSR" 0.05 t u
        = Real.sin (0.05 * Real.pi * 10) * 0.2 := by
      simp [generateArrhythmiaECG]
      norm_num
    rw [h, show (0.05:ℝ) * Real.pi * 10 = Real.pi / 2 by ring, Real.sin_pi_div_two]
    norm_num

/-- C7 witness: the flat-segment conjunct at phase 0.5 and the QRS-window
conjunct at phase 0.12. -/
theorem c7_nsr_waveform_witness :
    generateArrhythmiaECG "NSR" 0.5 0 0 = 0 ∧
    generateArrhythmiaECG "NSR" 0.12 0 0
      = Real.sin (((0.12:ℝ) - 0.1) * Real.pi * 20) * 1.0 :=
  ⟨(c7_nsr_waveform 0.5 0 0).2.2.2.1 (by norm_num) (by norm_num),
   (c7_nsr_waveform 0.12 0 0).2.1 (by norm_num) (by norm_num)⟩

/-- C8 counterexample: at phase 0.05 with random draw u = 0.5 the claimed
P-wave value `sin(0.05·π·10)·(0.2 + (0.5−0.5)·0.3) = 0.2` differs from what
the code computes: the AF branch multiplies by `(0.1 + irregularity)`, a
base scale of 0.1, not the NSR scale 0.2, giving 0.1. -/
theorem c8_af_pwave_scale_counterexample :
    generateArrhythmiaECG "AF" 0.05 0 0.5 ≠
      Real.sin (0.05 * Real.pi * 10) * (0.2 + ((0.5 : ℝ) - 0.5) * 0.3) := by
  have h1 : generateArrhythmiaECG "AF" 0.05 0 0.5
      = Real.sin (0.05 * Real.pi * 10) * (0.1 + ((0.5 : ℝ) - 0.5) * 0.3) := by
    simp [generateArrhythmiaECG]
    norm_num
  rw [h1, show (0.05:ℝ) * Real.pi * 10 = Real.pi / 2 by ring, Real.sin_pi_div_two]
  norm_num

/-- C8 amended: the AF QRS window `[0.1,0.15)` and T-wave window
`[0.15,0.3)` produce exactly the NSR amplitudes, and on the P-wave window
`[0,0.1)` the amplitude is `sin(phase·π·10)` times `0.1` (not the NSR scale
0.2) perturbed by `(u−0.5)·0.3` for the per-sample uniform draw `u`. -/
theorem c8_af_windows (phase t u : ℝ) :
    (0 ≤ phase → phase < 0.1 →
      generateArrhythmiaECG "AF" phase t u =
        Real.sin (phase * Real.pi * 10) * (0.1 + (u - 0.5) * 0.3)) ∧
    (0.1 ≤ phase → phase < 0.15 →
      generateArrhythmiaECG "AF" phase t u = generateArrhythmiaECG "NSR" phase t u) ∧
    (0.15 ≤ phase → phase < 0.3 →
      generateArrhythmiaECG "AF" phase t u = generateArrhythmiaECG "NSR" phase t u) := by
  refine ⟨?_, ?_, ?_⟩
  · intro _ h1
    simp [generateArrhythmiaECG, h1]
  · intro h0 h1
    have hn : ¬ phase < 0.1 := by linarith
    simp [generateArrhythmiaECG, hn, h1]
  · intro h0 h1
    have hn : ¬ phase < 0.1 := by linarith
    have hn2 : ¬ phase < 0.15 := by linarith
    simp [generateArrhythmiaECG, hn, hn2, h1]

/-- C8 amended witness: the T-wave conjunct at phase 0.2 and the P-wave
conjunct at phase 0.05 with u = 0.5. -/
theorem c8_af_windows_witness :
    generateArrhythmiaECG "AF" 0.2 0 0.7 = generateArrhythmiaECG "NSR" 0.2 0 0.7 ∧
    generateArrhythmiaECG "AF" 0.05 0 0.5
      = Real.sin ((0.05:ℝ) * Real.pi * 10) * (0.1 + ((0.5:ℝ) - 0.5) * 0.3) :=
  ⟨(c8_af_windows 0.2 0 0.7).2.2 (by norm_num) (by norm_num),
   (c8_af_windows 0.05 0 0.5).1 (by norm_num) (by norm_num)⟩

/-- C9: the code evaluated at the failing input.  A frozen tick does
reschedule at the fixed 100 ms cadence, but each tick — frozen or not —
re-samples `time = Date.now() / 1000`, so the base (pre-noise) samples of
two consecutive frozen ticks 100 ms apart differ: with NSR, heart rate 72
and column x = 0, the first tick (clock 0 s) yields amplitude 0 while the
next frozen tick (clock 0.1 s) yields `sin(0.4π) > 0`.  The claim (and the
source comment "still update but don't advance time") says the frozen
sample sequence is identical on every tick. -/
theorem c9_frozen_tick_resamples_clock :
    nextTickDelayMs true = some 100 ∧
    ecgBaseSample "NSR" 72 0 400 0 0 0 = 0 ∧
    0 < ecgBaseSample "NSR" 72 0 400 0.1 0 0 := by
  refine ⟨rfl, ?_, ?_⟩
  · norm_num [ecgBaseSample, generateArrhythmiaECG, Int.fract_zero, Real.sin_zero]
  · have ht : (0.1:ℝ) + ((0:ℕ):ℝ) / ((400:ℕ):ℝ) * 2 = 0.1 := by norm_num
    have hph : Int.fract (((0.1:ℝ) + ((0:ℕ):ℝ) / ((400:ℕ):ℝ) * 2) * 72 / 60) = 0.12 := by
      rw [ht, show (0.1:ℝ) * 72 / 60 = 0.12 by norm_num]
      exact Int.fract_eq_self.mpr ⟨by norm_num, by norm_num⟩
    simp only [ecgBaseSample, hph]
    have hn : ¬ (0.12:ℝ) < 0.1 := by norm_num
    have h1 : (0.12:ℝ) < 0.15 := by norm_num
    have hst : ¬ ((0.15:ℝ) ≤ 0.12 ∧ (0.12:ℝ) < 0.25) := by norm_num
    simp [generateArrhythmiaECG, hn, h1, hst]
    have heq : ((0.12:ℝ) - 0.1) * Real.pi * 20 = 0.4 * Real.pi := by ring
    rw [heq]
    have hpos : 0 < Real.sin (0.4 * Real.pi) := by
      apply Real.sin_pos_of_pos_of_lt_pi
      · positivity
      · nlinarith [Real.pi_pos]
    nlinarith [hpos]
